import Mathlib

/-!
Verification of the ATLAS status-dashboard chart viewer
(`src/static/index.js` plus the chart-pair behaviour described in the
design document).  The script builds one mutable options object, installs
a percent axis formatter, constructs the state-of-charge chart, mutates
the same object (roll period 24, degree-Celsius formatter), constructs
the temperature chart, and finally synchronizes the two charts with
`{ range: false }`.

The embedding models the script's heap explicitly (object references are
indices into a list of option records) because three variables alias the
single options object.  A `Dygraph` construction shallow-copies the
top-level properties of the options object it is handed, so each chart
records the snapshot taken at its construction instant.
-/

/-- The two axis-label formatter functions appearing in `index.js`:
`function(y) { return y + "%" }` for state of charge and
`function(y) { return y + "&deg;C" }` for temperature. -/
inductive Formatter
  | percent
  | degreesCelsius
  deriving DecidableEq, Repr

/-- Applying a formatter to a tick value, as the JS `y + suffix`
string coercion does: render the number, append the literal unit. -/
def applyFormatter : Formatter → Int → String
  | .percent, y => toString y ++ "%"
  | .degreesCelsius, y => toString y ++ "&deg;C"

/-- The top-level properties of the options object literal of
`index.js` lines 1-8, plus the `axes` property assigned later
(`none` before any `axes` assignment). -/
structure OptionsObj where
  rollPeriod : Nat
  dateWindow : Int × Int
  showRoller : Bool
  showRangeSelector : Bool
  labelsUTC : Bool
  height : Nat
  axes : Option Formatter
  deriving DecidableEq, Repr

/-- A constructed Dygraph: container id, CSV url, and the shallow copy
of the options object taken at construction time. -/
structure Chart where
  containerId : String
  csvUrl : String
  attrs : OptionsObj
  deriving DecidableEq, Repr

/-- Result of running `index.js`: the final heap (list of allocated
option objects, references are indices), the references held by the
three option variables, and the two charts. -/
structure ScriptState where
  heap : List OptionsObj
  optionsRef : Nat
  socOptionsRef : Nat
  temperatureOptionsRef : Nat
  soc : Chart
  temperature : Chart

/-- Default object used only for out-of-range heap reads (never hit: the
script allocates exactly one object and all references point at it). -/
def defaultObj : OptionsObj :=
  { rollPeriod := 0, dateWindow := (0, 0), showRoller := false,
    showRangeSelector := false, labelsUTC := false, height := 0, axes := none }

/-- Heap read. -/
def heapGet (heap : List OptionsObj) (r : Nat) : OptionsObj :=
  heap.getD r defaultObj

/-- `index.js`, statement by statement.  `now` is the value returned by
`Date.now()` while the script runs (both reads happen in the same
evaluation of the object literal).  Comments quote the source line. -/
def runScript (now : Int) : ScriptState :=
  -- var options = { rollPeriod: 6, dateWindow: [Date.now() - 2*30*24*60*60*1000, Date.now()],
  --                 showRoller: true, showRangeSelector: true, labelsUTC: true, height: 300 };
  let obj0 : OptionsObj :=
    { rollPeriod := 6
      dateWindow := (now - 2 * 30 * 24 * 60 * 60 * 1000, now)
      showRoller := true
      showRangeSelector := true
      labelsUTC := true
      height := 300
      axes := none }
  let heap0 := [obj0]
  let optionsRef := 0
  -- var socOptions = options;   (reference copy, no new object)
  let socOptionsRef := optionsRef
  -- socOptions.axes = { y: { axisLabelFormatter: function(y) { return y + "%"; } } };
  let heap1 := heap0.set socOptionsRef
    { heapGet heap0 socOptionsRef with axes := some Formatter.percent }
  -- var soc = new Dygraph(document.getElementById("fig-soc"), "soc.csv", options);
  -- Dygraph shallow-copies the supplied attrs into the chart.
  let soc : Chart :=
    { containerId := "fig-soc", csvUrl := "soc.csv", attrs := heapGet heap1 optionsRef }
  -- var temperatureOptions = options;   (reference copy again)
  let temperatureOptionsRef := optionsRef
  -- temperatureOptions.rollPeriod = 24;
  let heap2 := heap1.set temperatureOptionsRef
    { heapGet heap1 temperatureOptionsRef with rollPeriod := 24 }
  -- temperatureOptions.axes = { y: { axisLabelFormatter: function(y) { return y + "&deg;C"; } } };
  let heap3 := heap2.set temperatureOptionsRef
    { heapGet heap2 temperatureOptionsRef with axes := some Formatter.degreesCelsius }
  -- var temperature = new Dygraph(document.getElementById("fig-temperature"), "temperature.csv", options);
  let temperature : Chart :=
    { containerId := "fig-temperature", csvUrl := "temperature.csv",
      attrs := heapGet heap3 optionsRef }
  { heap := heap3
    optionsRef := optionsRef
    socOptionsRef := socOptionsRef
    temperatureOptionsRef := temperatureOptionsRef
    soc := soc
    temperature := temperature }

/-!
The behaviour of the charting machinery itself lives in the repository's
static assets (`static/dygraph.min.js`, `static/dygraph-synchronizer.js`),
which are not part of the source tree; the definitions below model those
parts from the design document.
-/

/-- Modelled from the spec: the rolling-average display transform of the
charting library (shipped as `static/dygraph.min.js`, absent from the
source tree).  `SetRollPeriod(chart, period)` recomputes the displayed
curve as the trailing moving average: each displayed point is the mean
of the most recent `period` raw samples including itself, the window
shrinking at the series start. -/
def rollingMean (p : Nat) (xs : List ℚ) : List ℚ :=
  (List.range xs.length).map (fun i =>
    let window := (xs.take (i + 1)).drop (i + 1 - p)
    window.sum / (window.length : ℚ))

lemma list_sum_eq_range_getD (l : List ℚ) :
    l.sum = ∑ j in Finset.range l.length, l.getD j 0 := by
  induction l with
  | nil => simp
  | cons a l ih =>
    rw [List.sum_cons, List.length_cons, Finset.sum_range_succ']
    simp [ih, add_comm]

lemma slice_getD (xs : List ℚ) (lo k j : Nat) (hj : lo + j < k) :
    ((xs.take k).drop lo).getD j 0 = xs.getD (lo + j) 0 := by
  simp [List.getD_eq_getElem?_getD, List.getElem?_drop, List.getElem?_take, hj]

lemma rollingMean_getD (p : Nat) (xs : List ℚ) (i : Nat) (hi : i < xs.length) :
    (rollingMean p xs).getD i 0 =
      (∑ j in Finset.Icc (i + 1 - p) i, xs.getD j 0) / ((i + 1 - (i + 1 - p) : Nat) : ℚ) := by
  have hstep : (rollingMean p xs).getD i 0 =
      ((xs.take (i + 1)).drop (i + 1 - p)).sum /
        (((xs.take (i + 1)).drop (i + 1 - p)).length : ℚ) := by
    simp [rollingMean, List.getD_eq_getElem?_getD, List.getElem?_range, hi]
  have hlen : ((xs.take (i + 1)).drop (i + 1 - p)).length = i + 1 - (i + 1 - p) := by
    simp [List.length_drop, List.length_take]
    omega
  rw [hstep, hlen, list_sum_eq_range_getD, hlen]
  congr 1
  rw [← Nat.Ico_succ_right, Finset.sum_Ico_eq_sum_range]
  refine Finset.sum_congr rfl (fun j hj => ?_)
  rw [Finset.mem_range] at hj
  rw [slice_getD xs (i + 1 - p) (i + 1) j (by omega)]

lemma rollingMean_length (p : Nat) (xs : List ℚ) :
    (rollingMean p xs).length = xs.length := by
  simp [rollingMean]

/-- Splits a character list on a separator character; the result always
has one more group than there are separators (so an empty input gives
one empty group). -/
def splitOnChar (sep : Char) : List Char → List (List Char)
  | [] => [[]]
  | c :: cs =>
    let rest := splitOnChar sep cs
    if c = sep then [] :: rest
    else
      match rest with
      | [] => [[c]]
      | g :: gs => (c :: g) :: gs

/-- Parses a non-empty all-digit character list as a natural number. -/
def parseNatDigits? (cs : List Char) : Option Nat :=
  if cs ≠ [] ∧ cs.all Char.isDigit then
    some (cs.foldl (fun n c => 10 * n + (c.toNat - 48)) 0)
  else none

/-- Modelled from the spec: the date parser of the charting library
(absent from the source tree).  The CSV contract fixes the first column
to an ISO-8601 date; the model accepts `YYYY-MM-DD` and encodes it as an
order-preserving integer timestamp. -/
def parseDate? (cs : List Char) : Option Int :=
  match splitOnChar '-' cs with
  | [ys, ms, ds] =>
    match parseNatDigits? ys, parseNatDigits? ms, parseNatDigits? ds with
    | some y, some m, some d =>
      if 1 ≤ m ∧ m ≤ 12 ∧ 1 ≤ d ∧ d ≤ 31 then
        some ((y * 10000 + m * 100 + d : Nat) : Int)
      else none
    | _, _, _ => none
  | _ => none

/-- An unsigned numeric cell: digits with an optional fractional part,
read as an exact rational. -/
def parseUnsigned? (body : List Char) : Option ℚ :=
  match splitOnChar '.' body with
  | [w] => (parseNatDigits? w).map (fun n => (n : ℚ))
  | [w, f] =>
    match parseNatDigits? w, parseNatDigits? f with
    | some n, some fr => some ((n : ℚ) + (fr : ℚ) / ((10 : ℚ) ^ f.length))
    | _, _ => none
  | _ => none

/-- Modelled from the spec: the numeric-cell parser of the charting
library (absent from the source tree): an optional minus sign followed
by an unsigned decimal number. -/
def parseNumber? (cs : List Char) : Option ℚ :=
  match cs with
  | '-' :: rest => (parseUnsigned? rest).map (fun q => -q)
  | _ => parseUnsigned? cs

/-- Parses the value cells of one row; fails when any cell is
non-numeric. -/
def parseValues? : List (List Char) → Option (List ℚ)
  | [] => some []
  | v :: vs =>
    match parseNumber? v, parseValues? vs with
    | some q, some qs => some (q :: qs)
    | _, _ => none

/-- Modelled from the spec: one CSV data row is a date cell followed by
one or more numeric cells. -/
def parseRow? (fields : List (List Char)) : Option (Int × List ℚ) :=
  match fields with
  | dateField :: v :: vs =>
    match parseDate? dateField, parseValues? (v :: vs) with
    | some t, some values => some (t, values)
    | _, _ => none
  | _ => none

/-- Parses every data row (each first split on commas); fails when any
row is malformed. -/
def parseRows : List (List Char) → Option (List (Int × List ℚ))
  | [] => some []
  | r :: rs =>
    match parseRow? (splitOnChar ',' r), parseRows rs with
    | some p, some ps => some (p :: ps)
    | _, _ => none

/-- The non-empty lines of a CSV document. -/
def nonEmptyLines (cs : List Char) : List (List Char) :=
  (splitOnChar '\x0a' cs).filter (fun l => !l.isEmpty)

/-- Modelled from the spec: `DataLoadError` is the only error kind in
scope — a network failure or a parse failure on a CSV resource. -/
inductive DataLoadError
  | unreachable
  | missingHeader
  | malformedRow
  deriving DecidableEq, Repr

/-- Modelled from the spec: CSV loading — first non-empty line is the
header, every later non-empty line is a data row. -/
def parseCSV (input : List Char) : Except DataLoadError (List (Int × List ℚ)) :=
  match nonEmptyLines input with
  | [] => .error .missingHeader
  | _header :: rows =>
    match parseRows rows with
    | some ps => .ok ps
    | none => .error .malformedRow

/-- The lifecycle states of a ChartView. -/
inductive ChartState
  | loading
  | ready
  | failed
  deriving DecidableEq, Repr

/-- A rendered chart: its lifecycle state and the points it displays. -/
structure ChartView where
  state : ChartState
  points : List (Int × List ℚ)
  deriving DecidableEq, Repr

/-- Modelled from the spec: `Initialize` — fetch the CSV resource
(`none` models an unreachable resource), parse it, and either render the
rows (Ready) or render an empty chart (Failed).  The page itself never
crashes: the function is total and always yields a ChartView. -/
def initializeChart (fetchResult : Option (List Char)) : ChartView :=
  match fetchResult with
  | none => { state := .failed, points := [] }
  | some content =>
    match parseCSV content with
    | .error _ => { state := .failed, points := [] }
    | .ok rows => { state := .ready, points := rows }

/-- A data row is malformed when it has fewer than two cells, its date
cell does not parse, or some value cell is non-numeric. -/
def RowMalformed (fields : List (List Char)) : Prop :=
  fields.length < 2 ∨ parseDate? (fields.headD []) = none ∨
    ∃ v ∈ fields.tail, parseNumber? v = none

/-- A CSV document is malformed when it has no header line at all or
some data row is malformed. -/
def MalformedCSV (input : List Char) : Prop :=
  nonEmptyLines input = [] ∨
    ∃ r ∈ (nonEmptyLines input).tail, RowMalformed (splitOnChar ',' r)

/-- One member of a synchronized pair: its own series, its visible time
window, and its value-axis bounds (none while no point is visible). -/
structure SyncChart where
  series : List (Int × ℚ)
  window : Int × Int
  yRange : Option (ℚ × ℚ)
  deriving DecidableEq, Repr

/-- The values of a series whose timestamps fall in a window. -/
def valuesInWindow (series : List (Int × ℚ)) (w : Int × Int) : List ℚ :=
  (series.filter (fun s => decide (w.1 ≤ s.1 ∧ s.1 ≤ w.2))).map Prod.snd

/-- Auto-scaling of a value axis: the extremes of the chart's own data
inside the visible window. -/
def autoScale (series : List (Int × ℚ)) (w : Int × Int) : Option (ℚ × ℚ) :=
  match valuesInWindow series w with
  | [] => none
  | v :: vs => some (vs.foldl min v, vs.foldl max v)

/-- A redraw recomputes a chart's value-axis bounds from its own data in
its current window. -/
def redraw (c : SyncChart) : SyncChart :=
  { c with yRange := autoScale c.series c.window }

/-- A synchronized pair together with its `{ range }` option. -/
structure ChartGroup where
  a : SyncChart
  b : SyncChart
  rangeLinked : Bool
  deriving DecidableEq, Repr

/-- Modelled from the spec: `Dygraph.synchronize(a, b, { range })`
(shipped as `static/dygraph-synchronizer.js`, absent from the source
tree) links the two charts into a group; `range` records whether the
value axes are mirrored too. -/
def synchronize (a b : SyncChart) (range : Bool) : ChartGroup :=
  { a := a, b := b, rangeLinked := range }

/-- Modelled from the spec: a user-driven pan or zoom on one member of a
synchronized group.  Within the same interaction the triggering chart
takes the new window and redraws, and the synchronizer copies the window
to the other member, which redraws too; when `rangeLinked` the value
axis is copied as well, otherwise each chart auto-scales its own data. -/
def panZoom (g : ChartGroup) (onFirst : Bool) (w : Int × Int) : ChartGroup :=
  if onFirst then
    let a := redraw { g.a with window := w }
    let b :=
      if g.rangeLinked then { g.b with window := a.window, yRange := a.yRange }
      else redraw { g.b with window := a.window }
    { g with a := a, b := b }
  else
    let b := redraw { g.b with window := w }
    let a :=
      if g.rangeLinked then { g.a with window := b.window, yRange := b.yRange }
      else redraw { g.a with window := b.window }
    { g with a := a, b := b }

/-- The events a ChartView reacts to: the load outcome while Loading,
and user interactions while Ready. -/
inductive ChartEvent
  | loadSuccess
  | loadError
  | pan
  | zoom
  | rollPeriodEdit
  deriving DecidableEq, Repr

/-- Modelled from the spec: the ChartView lifecycle transition relation
(`none` = no transition fires).  `Loading → Ready` on a successful load,
`Loading → Failed` on a load error, and every user interaction re-enters
`Ready`. -/
def stepChart : ChartState → ChartEvent → Option ChartState
  | .loading, .loadSuccess => some .ready
  | .loading, .loadError => some .failed
  | .ready, .pan => some .ready
  | .ready, .zoom => some .ready
  | .ready, .rollPeriodEdit => some .ready
  | _, _ => none

/-- The user-driven events (pan, zoom, roll-period edit). -/
def isUserEvent : ChartEvent → Bool
  | .pan => true
  | .zoom => true
  | .rollPeriodEdit => true
  | _ => false

lemma parseValues?_eq_none_iff (l : List (List Char)) :
    parseValues? l = none ↔ ∃ v ∈ l, parseNumber? v = none := by
  induction l with
  | nil => simp [parseValues?]
  | cons v vs ih =>
    cases hv : parseNumber? v <;> cases hvs : parseValues? vs <;>
      simp [parseValues?, hv, hvs, ← ih]

lemma parseValues?_cons_none (v : List Char) (vs : List (List Char)) :
    parseValues? (v :: vs) = none ↔ parseNumber? v = none ∨ parseValues? vs = none := by
  cases hv : parseNumber? v <;> cases hvs : parseValues? vs <;> simp [parseValues?, hv, hvs]

lemma parseRow?_eq_none_iff (fields : List (List Char)) :
    parseRow? fields = none ↔ RowMalformed fields := by
  match fields with
  | [] => simp [parseRow?, RowMalformed]
  | [d] => simp [parseRow?, RowMalformed]
  | d :: v :: vs =>
    cases hd : parseDate? d <;> cases hvv : parseValues? (v :: vs) <;>
      simp [parseRow?, RowMalformed, hd, hvv, ← parseValues?_eq_none_iff,
        ← parseValues?_cons_none]

lemma parseRows_eq_none_iff (rs : List (List Char)) :
    parseRows rs = none ↔ ∃ r ∈ rs, parseRow? (splitOnChar ',' r) = none := by
  induction rs with
  | nil => simp [parseRows]
  | cons r rs ih =>
    cases hr : parseRow? (splitOnChar ',' r) <;> cases hrs : parseRows rs <;>
      simp [parseRows, hr, hrs, ← ih]

lemma parseCSV_error_iff (input : List Char) :
    (∃ e, parseCSV input = .error e) ↔ MalformedCSV input := by
  unfold parseCSV MalformedCSV
  cases hl : nonEmptyLines input with
  | nil => simp
  | cons h rows =>
    cases hr : parseRows rows <;>
      simp [hr, ← parseRows_eq_none_iff, ← parseRow?_eq_none_iff]

/-- The example CSV document of the design document's test scenario. -/
def csvSample : List Char :=
  "date,value\x0a2016-01-01,80\x0a2016-01-02,82\x0a2016-01-03,79".data

/-- The rows the sample document parses to. -/
def sampleRows : List (Int × List ℚ) :=
  [(20160101, [((80 : Nat) : ℚ)]), (20160102, [((82 : Nat) : ℚ)]),
    (20160103, [((79 : Nat) : ℚ)])]

lemma parseCSV_csvSample : parseCSV csvSample = .ok sampleRows := rfl

/-- C3: at initialization the state-of-charge chart's rolling-mean
control is pre-populated with default period 6 and the temperature
chart's with default period 24 (the roller control is shown on both);
the two configured defaults are distinct. -/
theorem charts_distinct_roll_defaults (now : Int) :
    (runScript now).soc.attrs.rollPeriod = 6 ∧
    (runScript now).soc.attrs.showRoller = true ∧
    (runScript now).temperature.attrs.rollPeriod = 24 ∧
    (runScript now).temperature.attrs.showRoller = true ∧
    (runScript now).soc.attrs.rollPeriod ≠ (runScript now).temperature.attrs.rollPeriod :=
  ⟨rfl, rfl, rfl, rfl, by simp [runScript, heapGet, defaultObj]⟩

/-- C4: `options`, `socOptions` and `temperatureOptions` are three
references to the one allocated object; the assignments made through
`temperatureOptions` mutate it, so after the script runs the single
object holds roll period 24 and only the degree-Celsius formatter,
the percent formatter having been overwritten after the state-of-charge
chart was constructed and before the temperature chart was. -/
theorem options_object_shared_and_mutated (now : Int) :
    ((runScript now).socOptionsRef = (runScript now).optionsRef ∧
      (runScript now).temperatureOptionsRef = (runScript now).optionsRef ∧
      (runScript now).heap.length = 1) ∧
    (heapGet (runScript now).heap (runScript now).optionsRef).rollPeriod = 24 ∧
    (heapGet (runScript now).heap (runScript now).optionsRef).axes
      = some Formatter.degreesCelsius ∧
    (runScript now).soc.attrs.axes = some Formatter.percent ∧
    (runScript now).temperature.attrs.axes = some Formatter.degreesCelsius :=
  ⟨⟨rfl, rfl, rfl⟩, rfl, rfl, rfl, rfl⟩

/-- C5: both charts are created with default visible window
[now − 60 days, now]: the start bound is the clock value minus exactly
2·30·24·60·60·1000 milliseconds and the end bound is the clock value. -/
theorem default_window_is_last_sixty_days (now : Int) :
    (runScript now).soc.attrs.dateWindow = (now - 2 * 30 * 24 * 60 * 60 * 1000, now) ∧
    (runScript now).temperature.attrs.dateWindow
      = (now - 2 * 30 * 24 * 60 * 60 * 1000, now) ∧
    (2 * 30 * 24 * 60 * 60 * 1000 : Int) = 5184000000 :=
  ⟨rfl, rfl, by norm_num⟩

/-- C6: the state-of-charge chart carries the percent axis formatter and
the temperature chart the degree-Celsius one; applied to any tick value
each returns the rendered number with the literal unit appended — the
numeric value is passed through unmodified, with no conversion. -/
theorem axis_formatters_append_units (now : Int) (y : Int) :
    (runScript now).soc.attrs.axes = some Formatter.percent ∧
    (runScript now).temperature.attrs.axes = some Formatter.degreesCelsius ∧
    applyFormatter Formatter.percent y = toString y ++ "%" ∧
    applyFormatter Formatter.degreesCelsius y = toString y ++ "&deg;C" :=
  ⟨rfl, rfl, rfl, rfl⟩

/-- C10: both charts are constructed with `labelsUTC` set to true, the
option that makes the library render date-axis labels and legend
timestamps in UTC rather than the viewer's local time zone. -/
theorem charts_constructed_with_labels_utc (now : Int) :
    (runScript now).soc.attrs.labelsUTC = true ∧
    (runScript now).temperature.attrs.labelsUTC = true :=
  ⟨rfl, rfl⟩

/-- C1: with `{ range: false }` synchronization, after any user-driven
pan or zoom on either member both charts' visible time windows equal the
new window of the triggering chart, while each chart's value-axis bounds
are recomputed independently from its own data in that shared window. -/
theorem sync_range_false_mirrors_window (a b : SyncChart) (onFirst : Bool) (w : Int × Int) :
    ((panZoom (synchronize a b false) onFirst w).a.window = w ∧
      (panZoom (synchronize a b false) onFirst w).b.window = w) ∧
    (panZoom (synchronize a b false) onFirst w).a.yRange = autoScale a.series w ∧
    (panZoom (synchronize a b false) onFirst w).b.yRange = autoScale b.series w := by
  cases onFirst <;> simp [panZoom, synchronize, redraw]

/-- C2: for every roll period p ≥ 1 the displayed value at index i is
the arithmetic mean of the raw samples at indices max(0, i−p+1)
(written `i + 1 - p` in truncated ℕ subtraction) through i — a trailing
window shrinking at the series start, every entry defined; for the raw
series [80, 82, 79], period 1 displays [80, 82, 79] and period 2
displays [80, 81, 80.5]. -/
theorem rolling_mean_is_trailing_average :
    (∀ (p : Nat) (xs : List ℚ) (i : Nat), 1 ≤ p → i < xs.length →
        (rollingMean p xs).length = xs.length ∧
        (rollingMean p xs).getD i 0 =
          (∑ j in Finset.Icc (i + 1 - p) i, xs.getD j 0) /
            ((i + 1 - (i + 1 - p) : Nat) : ℚ)) ∧
    rollingMean 1 [80, 82, 79] = [80, 82, 79] ∧
    rollingMean 2 [80, 82, 79] = [80, 81, 80.5] := by
  refine ⟨fun p xs i _hp hi => ⟨rollingMean_length p xs, rollingMean_getD p xs i hi⟩, ?_, ?_⟩ <;>
    norm_num [rollingMean, List.range_succ]

/-- Witness for C2 at p = 2, i = 2 on the sample series. -/
theorem rolling_mean_is_trailing_average_witness :
    (1 ≤ 2 ∧ 2 < ([80, 82, 79] : List ℚ).length) ∧
    ((rollingMean 2 [80, 82, 79]).length = ([80, 82, 79] : List ℚ).length ∧
      (rollingMean 2 [80, 82, 79]).getD 2 0 =
        (∑ j in Finset.Icc (2 + 1 - 2) 2, ([80, 82, 79] : List ℚ).getD j 0) /
          ((2 + 1 - (2 + 1 - 2) : Nat) : ℚ)) :=
  ⟨⟨by norm_num, by norm_num⟩,
    rolling_mean_is_trailing_average.1 2 [80, 82, 79] 2 (by norm_num) (by norm_num)⟩

/-- C7: `Initialize` fails exactly when the CSV resource is unreachable
or malformed; on failure the chart renders empty, and it always renders
(Failed or Ready) — the page never crashes. -/
theorem initializeChart_fails_iff (fetch : Option (List Char)) :
    ((initializeChart fetch).state = ChartState.failed ↔
      fetch = none ∨ ∃ content, fetch = some content ∧ MalformedCSV content) ∧
    ((initializeChart fetch).state = ChartState.failed →
      (initializeChart fetch).points = []) ∧
    ((initializeChart fetch).state = ChartState.failed ∨
      (initializeChart fetch).state = ChartState.ready) := by
  cases fetch with
  | none => simp [initializeChart]
  | some content =>
    cases hc : parseCSV content with
    | error e =>
      have hm : MalformedCSV content := (parseCSV_error_iff content).mp ⟨e, hc⟩
      simp [initializeChart, hc, hm]
    | ok rows =>
      have hm : ¬ MalformedCSV content := by
        rw [← parseCSV_error_iff]
        rintro ⟨e, he⟩
        rw [hc] at he
        cases he
      simp [initializeChart, hc, hm]

/-- Witness for C7 at an unreachable resource. -/
theorem initializeChart_fails_iff_witness :
    (initializeChart none).state = ChartState.failed ∧
    (initializeChart none).points = [] :=
  ⟨(initializeChart_fails_iff none).1.mpr (Or.inl rfl),
    (initializeChart_fails_iff none).2.1 ((initializeChart_fails_iff none).1.mpr (Or.inl rfl))⟩

/-- C8: for every valid CSV input parsing to N ≥ 1 rows, the chart
renders Ready with exactly N points — loading then rendering preserves
the sample count. -/
theorem initializeChart_preserves_count (content : List Char) (rows : List (Int × List ℚ))
    (hparse : parseCSV content = .ok rows) (_hN : 1 ≤ rows.length) :
    (initializeChart (some content)).state = ChartState.ready ∧
    (initializeChart (some content)).points.length = rows.length := by
  simp [initializeChart, hparse]

/-- Witness for C8 on the three-row sample document. -/
theorem initializeChart_preserves_count_witness :
    (initializeChart (some csvSample)).state = ChartState.ready ∧
    (initializeChart (some csvSample)).points.length = sampleRows.length :=
  initializeChart_preserves_count csvSample sampleRows (by rfl) (by norm_num [sampleRows])

/-- C9: the ChartView state machine has exactly the states Loading,
Ready and Failed; Failed is terminal and reachable only from Loading on
a load error; user pan/zoom/roll-period events keep a Ready chart Ready,
so a Ready chart never transitions to Failed. -/
theorem chartview_state_machine :
    (∀ s : ChartState,
        s = ChartState.loading ∨ s = ChartState.ready ∨ s = ChartState.failed) ∧
    (∀ e, stepChart ChartState.failed e = none) ∧
    (∀ s e, stepChart s e = some ChartState.failed →
        s = ChartState.loading ∧ e = ChartEvent.loadError) ∧
    (∀ e, isUserEvent e = true → stepChart ChartState.ready e = some ChartState.ready) ∧
    (∀ e, stepChart ChartState.ready e ≠ some ChartState.failed) :=
  ⟨fun s => by cases s <;> simp,
    fun e => by cases e <;> rfl,
    fun s e h => by cases s <;> cases e <;> simp_all [stepChart],
    fun e he => by cases e <;> simp_all [stepChart, isUserEvent],
    fun e => by cases e <;> simp [stepChart]⟩

/-- Witness for C9: the Failed-only-from-Loading and Ready-re-entry
clauses at concrete inputs. -/
theorem chartview_state_machine_witness :
    (ChartState.loading = ChartState.loading ∧
      ChartEvent.loadError = ChartEvent.loadError) ∧
    stepChart ChartState.ready ChartEvent.pan = some ChartState.ready :=
  ⟨chartview_state_machine.2.2.1 ChartState.loading ChartEvent.loadError rfl,
    chartview_state_machine.2.2.2.1 ChartEvent.pan rfl⟩

/-- Witness for C3 at clock value 0. -/
theorem charts_distinct_roll_defaults_witness :
    (runScript 0).soc.attrs.rollPeriod = 6 ∧
    (runScript 0).soc.attrs.showRoller = true ∧
    (runScript 0).temperature.attrs.rollPeriod = 24 ∧
    (runScript 0).temperature.attrs.showRoller = true ∧
    (runScript 0).soc.attrs.rollPeriod ≠ (runScript 0).temperature.attrs.rollPeriod :=
  charts_distinct_roll_defaults 0

/-- Witness for C4 at clock value 0. -/
theorem options_object_shared_and_mutated_witness :
    (((runScript 0).socOptionsRef = (runScript 0).optionsRef ∧
      (runScript 0).temperatureOptionsRef = (runScript 0).optionsRef ∧
      (runScript 0).heap.length = 1) ∧
    (heapGet (runScript 0).heap (runScript 0).optionsRef).rollPeriod = 24 ∧
    (heapGet (runScript 0).heap (runScript 0).optionsRef).axes
      = some Formatter.degreesCelsius ∧
    (runScript 0).soc.attrs.axes = some Formatter.percent ∧
    (runScript 0).temperature.attrs.axes = some Formatter.degreesCelsius) :=
  options_object_shared_and_mutated 0

/-- Witness for C5 at clock value 0. -/
theorem default_window_is_last_sixty_days_witness :
    ((runScript 0).soc.attrs.dateWindow = (0 - 2 * 30 * 24 * 60 * 60 * 1000, 0) ∧
    (runScript 0).temperature.attrs.dateWindow
      = (0 - 2 * 30 * 24 * 60 * 60 * 1000, 0) ∧
    (2 * 30 * 24 * 60 * 60 * 1000 : Int) = 5184000000) :=
  default_window_is_last_sixty_days 0

/-- Witness for C6 at clock value 0 and tick value 55. -/
theorem axis_formatters_append_units_witness :
    ((runScript 0).soc.attrs.axes = some Formatter.percent ∧
    (runScript 0).temperature.attrs.axes = some Formatter.degreesCelsius ∧
    applyFormatter Formatter.percent 55 = toString (55 : Int) ++ "%" ∧
    applyFormatter Formatter.degreesCelsius 55 = toString (55 : Int) ++ "&deg;C") :=
  axis_formatters_append_units 0 55

/-- Witness for C10 at clock value 0. -/
theorem charts_constructed_with_labels_utc_witness :
    ((runScript 0).soc.attrs.labelsUTC = true ∧
    (runScript 0).temperature.attrs.labelsUTC = true) :=
  charts_constructed_with_labels_utc 0

/-- An example pair of one-sample charts. -/
def sampleChartA : SyncChart := { series := [(1, 10)], window := (0, 5), yRange := none }

/-- A second example chart for the pair. -/
def sampleChartB : SyncChart := { series := [(1, 20)], window := (0, 5), yRange := none }

/-- Witness for C1 on the example pair, zooming the first chart to the
window (0, 2). -/
theorem sync_range_false_mirrors_window_witness :
    (((panZoom (synchronize sampleChartA sampleChartB false) true (0, 2)).a.window = (0, 2) ∧
      (panZoom (synchronize sampleChartA sampleChartB false) true (0, 2)).b.window = (0, 2)) ∧
    (panZoom (synchronize sampleChartA sampleChartB false) true (0, 2)).a.yRange
      = autoScale sampleChartA.series (0, 2) ∧
    (panZoom (synchronize sampleChartA sampleChartB false) true (0, 2)).b.yRange
      = autoScale sampleChartB.series (0, 2)) :=
  sync_range_false_mirrors_window sampleChartA sampleChartB true (0, 2)
